import Mathlib

/-!
Verification of the jwt-tutorial authentication and authorization subsystem.

The controller `src/controllers/user.controller.ts` is embedded directly.
The collaborating services (validator, bcrypt hasher, `MyUserService`,
`JWTService`, and the JWT authorization guard behind the `authenticate`
decorator) are not part of the provided sources; each such definition is
modelled from the specification and marked as such in its doc comment.
-/

namespace JwtTutorial

/-- The fixed, closed set of permission identifier tags.
Modelled from the spec: `PermissionKeys` in `src/authorization/permission-keys`
is not among the provided sources; the spec lists the enumerated string tags
"UserBasic", "UserManagement", "AuthFeatures", "GetBlogs". -/
inductive PermissionKeys where
  | UserBasic
  | UserManagement
  | AuthFeatures
  | GetBlogs
  deriving DecidableEq, Repr

/-- A stored user record (`User` model): numeric id assigned by the store,
email, password field (holds the bcrypt hash once stored), and the set of
permission identifiers. -/
structure User where
  id : Nat
  email : String
  password : String
  permissions : List PermissionKeys
  deriving DecidableEq, Repr

/-- The transient (email, plaintext password) pair supplied to signup/login. -/
structure Credentials where
  email : String
  password : String
  deriving DecidableEq, Repr

/-- The identity claims / user profile shape signed into tokens: the reserved
security-id claim key (subject identifier), the business id field, and the
permission set. -/
structure UserProfile where
  securityId : String
  id : String
  permissions : List PermissionKeys
  deriving DecidableEq, Repr

/-- The error taxonomy of the subsystem (spec section 7). -/
inductive AppError where
  | ValidationError
  | InvalidCredentials (message : String)
  | TokenInvalid
  | TokenExpired
  | MissingToken
  | InsufficientPermission
  deriving DecidableEq, Repr

/-- Modelled from the spec: `BcryptHasher.hashPassword` (not among the provided
sources) is a one-way transform of the plaintext. Here it is embedded as an
injective tagging; the claims under verification depend only on hashing being
a function of the plaintext that `comparePassword` recomputes. -/
def hashPassword (plaintext : String) : String :=
  "bcrypt$" ++ plaintext

/-- Modelled from the spec: `BcryptHasher.comparePassword` recomputes the hash
of the provided plaintext and compares it with the stored hash, returning a
boolean rather than throwing. -/
def comparePassword (provided stored : String) : Bool :=
  hashPassword provided == stored

/-- Modelled from the spec: `validateCredentials` in `src/services/validator`
(not among the provided sources) rejects with `ValidationError` when the email
does not match a standard address syntax or the password is below the minimum
length (policy constant 8); otherwise it accepts. No side effects. -/
def validateCredentials (email password : String) : Except AppError Unit :=
  if email.data.contains '@' ∧ 8 ≤ password.length then
    Except.ok ()
  else
    Except.error AppError.ValidationError

/-- The user store: the external repository holding user rows keyed by id.
`create` assigns the next id and appends the row. -/
structure Store where
  users : List User
  nextId : Nat
  deriving DecidableEq, Repr

/-- The repository `create` operation: assigns the store's next id to the new
row, persists it and returns the persisted record. -/
def Store.create (store : Store) (u : User) : Store × User :=
  let assigned : User := { u with id := store.nextId }
  ({ users := store.users ++ [assigned], nextId := store.nextId + 1 }, assigned)

/-- The `signup` handler (user.controller.ts lines 55-77): validates the
credentials, overwrites the permissions field with the fixed default set,
hashes the password, creates the record in the store, blanks the returned
record's password and returns it. The result pairs the post-call store state
with the outcome, so that a failed call's (unchanged) store is observable. -/
def signup (store : Store) (userData : User) : Store × Except AppError User :=
  match validateCredentials userData.email userData.password with
  | Except.error e => (store, Except.error e)
  | Except.ok _ =>
    let withPerms : User :=
      { userData with
        permissions := [PermissionKeys.AuthFeatures, PermissionKeys.GetBlogs] }
    let hashed : User := { withPerms with password := hashPassword withPerms.password }
    let created := store.create hashed
    (created.1, Except.ok { created.2 with password := "" })

/-- The single error value surfaced for both login failure causes. -/
def invalidCredentialsMessage : String :=
  "Invalid email or password."

/-- Modelled from the spec: `MyUserService.verifyCredentials` (not among the
provided sources) looks up the user record by email and fails with the same
`InvalidCredentials` error value and message whether no record is found or the
password comparison fails; on success it returns the stored record. -/
def verifyCredentials (store : Store) (creds : Credentials) : Except AppError User :=
  match store.users.find? (fun u => u.email == creds.email) with
  | none => Except.error (AppError.InvalidCredentials invalidCredentialsMessage)
  | some user =>
    if comparePassword creds.password user.password then
      Except.ok user
    else
      Except.error (AppError.InvalidCredentials invalidCredentialsMessage)

/-- Modelled from the spec: `MyUserService.convertToUserProfile` (not among the
provided sources) is a pure mapping that copies the record's id to the subject
identifier (the reserved security-id claim key) and the record's permissions to
the claims' permission set; no side effects, no store access. -/
def convertToUserProfile (record : User) : UserProfile :=
  { securityId := toString record.id
    id := ""
    permissions := record.permissions }

/-- Numeric code of a permission tag, used by the token payload encoding. -/
def PermissionKeys.code : PermissionKeys → Nat
  | PermissionKeys.UserBasic => 0
  | PermissionKeys.UserManagement => 1
  | PermissionKeys.AuthFeatures => 2
  | PermissionKeys.GetBlogs => 3

/-- Injective numeric encoding of a string, for the modelled token signature. -/
def encodeString (s : String) : Nat :=
  s.data.foldl (fun a c => a * 1114112 + c.toNat + 1) 1

/-- Numeric encoding of a claims payload, for the modelled token signature. -/
def encodeProfile (p : UserProfile) : Nat :=
  encodeString p.securityId + 1000003 * encodeString p.id +
    1000033 * p.permissions.foldl (fun a k => a * 5 + k.code + 1) 1

/-- Modelled from the spec: the token signature is a function of the signing
secret and the serialized payload (claims, issuedAt, expiresAt). -/
def signPayload (secret : Nat) (p : UserProfile) (issuedAt expiresAt : Nat) : Nat :=
  secret + 2000003 * encodeProfile p + 3000017 * issuedAt + 4000037 * expiresAt

/-- A self-contained signed token: claims, expiry metadata, and signature. -/
structure Token where
  claims : UserProfile
  issuedAt : Nat
  expiresAt : Nat
  signature : Nat
  deriving DecidableEq, Repr

/-- Modelled from the spec: `JWTService.generateToken` (TokenService.issue, not
among the provided sources) serializes the claims with issuedAt and expiresAt
(= issuedAt + ttl) and signs them with the process-wide secret. Pure function
of (claims, secret, clock). -/
def generateToken (secret now ttl : Nat) (claims : UserProfile) : Token :=
  { claims := claims
    issuedAt := now
    expiresAt := now + ttl
    signature := signPayload secret claims now (now + ttl) }

/-- Modelled from the spec: `JWTService.verifyToken` (TokenService.verify, not
among the provided sources) fails with `TokenInvalid` if the signature does not
match, with `TokenExpired` if the current time is past expiresAt, and otherwise
returns the embedded claims unchanged with no store lookup. -/
def verifyToken (secret now : Nat) (t : Token) : Except AppError UserProfile :=
  if t.signature ≠ signPayload secret t.claims t.issuedAt t.expiresAt then
    Except.error AppError.TokenInvalid
  else if t.expiresAt < now then
    Except.error AppError.TokenExpired
  else
    Except.ok t.claims

/-- Modelled from the spec: the AuthorizationGuard behind the `authenticate`
decorator (not among the provided sources). With no bearer token it denies with
`MissingToken`; with a token it verifies via the TokenService and propagates
`TokenInvalid` / `TokenExpired`; with verified claims it allows iff every
declared required permission is in the claims' permission set, and otherwise
denies with `InsufficientPermission`. -/
def authorize (secret now : Nat) (required : List PermissionKeys)
    (bearer : Option Token) : Except AppError UserProfile :=
  match bearer with
  | none => Except.error AppError.MissingToken
  | some t =>
    match verifyToken secret now t with
    | Except.error e => Except.error e
    | Except.ok claims =>
      if required.all (fun p => decide (p ∈ claims.permissions)) then
        Except.ok claims
      else
        Except.error AppError.InsufficientPermission

/-- A protected operation: the guard runs first; only when it allows is the
operation's body invoked (the body threads an explicit invocation counter so
that "the body never runs on denial" is observable). -/
def runProtected {α : Type} (secret now : Nat) (required : List PermissionKeys)
    (bearer : Option Token) (body : UserProfile → Nat → α × Nat) (counter : Nat) :
    Except AppError α × Nat :=
  match authorize secret now required bearer with
  | Except.error e => (Except.error e, counter)
  | Except.ok claims =>
    let r := body claims counter
    (Except.ok r.1, r.2)

/-- Required-permission set declared on the `count` route (line 107). -/
def countRequired : List PermissionKeys :=
  [PermissionKeys.UserBasic]

/-- Required-permission set declared on the `find` route (line 122), shared by
`findById`, `replaceById` and `deleteById` (lines 144, 164, 180). -/
def findRequired : List PermissionKeys :=
  [PermissionKeys.UserManagement]

/-- Required-permission set declared on the `me` route (line 193). -/
def meRequired : List PermissionKeys :=
  [PermissionKeys.AuthFeatures]

/-- The `login` handler (user.controller.ts lines 98-104): verifies the
credentials, converts the record to a user profile, overwrites the profile's
permissions with the record's permissions, and returns a generated token. -/
def login (secret now ttl : Nat) (store : Store) (credentials : Credentials) :
    Except AppError Token :=
  match verifyCredentials store credentials with
  | Except.error e => Except.error e
  | Except.ok user =>
    let userProfile := convertToUserProfile user
    let userProfile1 : UserProfile := { userProfile with permissions := user.permissions }
    Except.ok (generateToken secret now ttl userProfile1)

/-- The `me` handler (user.controller.ts lines 192-202). The source assigns
`currentUser.id = currentUser[securityId]` and then `currentUser[securityId] = ""`
on the injected claims object itself, and returns that same object reference.
The embedding returns the pair (returned profile, post-call state of the
injected claims object); in the source both are the same mutated object. -/
def me (currentUser : UserProfile) : UserProfile × UserProfile :=
  let mutated : UserProfile :=
    { currentUser with id := currentUser.securityId, securityId := "" }
  (mutated, mutated)

/-! Concrete fixtures used by the witnesses. -/

/-- A concrete claims payload used by witnesses. -/
def profileFixture : UserProfile :=
  { securityId := "1"
    id := ""
    permissions := [PermissionKeys.AuthFeatures, PermissionKeys.GetBlogs] }

/-- A concrete stored user record used by witnesses. -/
def userFixture : User :=
  { id := 1
    email := "a@b.com"
    password := hashPassword "Str0ng!Pass"
    permissions := [PermissionKeys.AuthFeatures, PermissionKeys.GetBlogs] }

/-- A concrete store used by witnesses. -/
def storeFixture : Store :=
  { users := [userFixture], nextId := 2 }

/-- Correct credentials for `userFixture`. -/
def credentialsFixture : Credentials :=
  { email := "a@b.com", password := "Str0ng!Pass" }

/-- A concrete protected-operation body that bumps the invocation counter. -/
def bodyFixture : UserProfile → Nat → Nat × Nat :=
  fun claims counter => (claims.permissions.length, counter + 1)

/-- A signup request carrying a client-supplied escalated permissions field. -/
def signupAttemptFixture : User :=
  { id := 0
    email := "a@b.com"
    password := "Str0ng!Pass"
    permissions := [PermissionKeys.UserManagement] }

/-- The record signup is expected to return for `signupAttemptFixture` on an
empty store. -/
def createdUserFixture : User :=
  { id := 1
    email := "a@b.com"
    password := ""
    permissions := [PermissionKeys.AuthFeatures, PermissionKeys.GetBlogs] }

/-- A signup request whose password "abc" is below the minimum length. -/
def shortPasswordFixture : User :=
  { id := 0
    email := "a@b.com"
    password := "abc"
    permissions := [] }

/-- C1: for every protected operation (declared required-permission set and
body) and every verified token, the guard allows the call iff the required set
is a subset of the token claims' permission set; when it is not a subset the
call fails with `InsufficientPermission` and the body is never invoked (the
invocation counter is unchanged). -/
theorem guard_allows_iff_subset {α : Type} (secret now : Nat)
    (required : List PermissionKeys) (t : Token) (claims : UserProfile)
    (body : UserProfile → Nat → α × Nat) (counter : Nat)
    (hv : verifyToken secret now t = Except.ok claims) :
    ((∀ p ∈ required, p ∈ claims.permissions) →
      runProtected secret now required (some t) body counter =
        (Except.ok (body claims counter).1, (body claims counter).2)) ∧
    ((¬ ∀ p ∈ required, p ∈ claims.permissions) →
      runProtected secret now required (some t) body counter =
        (Except.error AppError.InsufficientPermission, counter)) := by
  constructor
  · intro hsub
    have hall : required.all (fun p => decide (p ∈ claims.permissions)) = true := by
      rw [List.all_eq_true]
      simpa using hsub
    simp [runProtected, authorize, hv, hall]
  · intro hsub
    have hall : ¬ required.all (fun p => decide (p ∈ claims.permissions)) = true := by
      rw [List.all_eq_true]
      simpa using hsub
    simp [runProtected, authorize, hv, hall]

/-- Witness for C1 at the `find` route's declared set `[UserManagement]` and a
token verified at time 10 whose claims hold only `AuthFeatures`, `GetBlogs`. -/
theorem guard_allows_iff_subset_witness :
    verifyToken 7 10 (generateToken 7 10 100 profileFixture) = Except.ok profileFixture ∧
    (((∀ p ∈ findRequired, p ∈ profileFixture.permissions) →
      runProtected 7 10 findRequired (some (generateToken 7 10 100 profileFixture))
          bodyFixture 0 =
        (Except.ok (bodyFixture profileFixture 0).1, (bodyFixture profileFixture 0).2)) ∧
    ((¬ ∀ p ∈ findRequired, p ∈ profileFixture.permissions) →
      runProtected 7 10 findRequired (some (generateToken 7 10 100 profileFixture))
          bodyFixture 0 =
        (Except.error AppError.InsufficientPermission, 0))) :=
  ⟨rfl,
   guard_allows_iff_subset 7 10 findRequired (generateToken 7 10 100 profileFixture)
     profileFixture bodyFixture 0 rfl⟩

/-- C2: whenever credential verification succeeds and returns the stored user
record, login returns a token whose embedded claims' permission set is exactly
the stored record's permission set. -/
theorem login_token_permissions (secret now ttl : Nat) (store : Store)
    (credentials : Credentials) (user : User)
    (hu : verifyCredentials store credentials = Except.ok user) :
    ∃ tok, login secret now ttl store credentials = Except.ok tok ∧
      tok.claims.permissions = user.permissions := by
  refine ⟨generateToken secret now ttl
    { convertToUserProfile user with permissions := user.permissions }, ?_, rfl⟩
  simp [login, hu]

/-- Witness for C2: login of `userFixture` with its correct credentials. -/
theorem login_token_permissions_witness :
    verifyCredentials storeFixture credentialsFixture = Except.ok userFixture ∧
    ∃ tok, login 7 10 100 storeFixture credentialsFixture = Except.ok tok ∧
      tok.claims.permissions = userFixture.permissions :=
  ⟨rfl,
   login_token_permissions 7 10 100 storeFixture credentialsFixture userFixture rfl⟩

/-- C3: every successfully created record from signup carries exactly the fixed
default permission set, whatever permissions field the caller supplied. -/
theorem signup_fixed_permissions (store : Store) (userData : User) (u : User)
    (h : (signup store userData).2 = Except.ok u) :
    u.permissions = [PermissionKeys.AuthFeatures, PermissionKeys.GetBlogs] := by
  unfold signup at h
  split at h
  · simp at h
  · simp [Store.create] at h
    rw [← h]

/-- Witness for C3: a signup request asking for `UserManagement` still yields a
record with the default permission set. -/
theorem signup_fixed_permissions_witness :
    (signup { users := [], nextId := 1 } signupAttemptFixture).2 =
      Except.ok createdUserFixture ∧
    createdUserFixture.permissions =
      [PermissionKeys.AuthFeatures, PermissionKeys.GetBlogs] :=
  ⟨rfl,
   signup_fixed_permissions { users := [], nextId := 1 } signupAttemptFixture
     createdUserFixture rfl⟩

/-- C4: when credential validation fails, signup propagates exactly that error
and the store is unchanged: no hashing result or new record is ever written. -/
theorem signup_no_write_on_invalid (store : Store) (userData : User) (e : AppError)
    (h : validateCredentials userData.email userData.password = Except.error e) :
    signup store userData = (store, Except.error e) := by
  unfold signup
  rw [h]

/-- Witness for C4: signup with the short password "abc" fails with
`ValidationError` and leaves the store unchanged. -/
theorem signup_no_write_on_invalid_witness :
    validateCredentials "a@b.com" "abc" = Except.error AppError.ValidationError ∧
    signup storeFixture shortPasswordFixture =
      (storeFixture, Except.error AppError.ValidationError) :=
  ⟨rfl,
   signup_no_write_on_invalid storeFixture shortPasswordFixture
     AppError.ValidationError rfl⟩

/-- C5: issue-then-verify round-trips the claims exactly: a token generated at
time issuedAt with lifetime ttl, verified with the same secret at any time
before issuedAt + ttl, yields exactly the embedded claims. -/
theorem token_roundtrip (secret issuedAt now ttl : Nat) (claims : UserProfile)
    (h : now < issuedAt + ttl) :
    verifyToken secret now (generateToken secret issuedAt ttl claims) =
      Except.ok claims := by
  have h2 : ¬ (issuedAt + ttl < now) := by omega
  simp [verifyToken, generateToken, h2]

/-- Witness for C5 at secret 5, issuance time 0, ttl 100, verification time 10. -/
theorem token_roundtrip_witness :
    (10 : Nat) < 0 + 100 ∧
    verifyToken 5 10 (generateToken 5 0 100 profileFixture) =
      Except.ok profileFixture :=
  ⟨by decide, token_roundtrip 5 0 10 100 profileFixture (by decide)⟩

/-- C6: any two failing credential verifications, whatever their cause (unknown
email or wrong password), produce the same `InvalidCredentials` error value and
message. -/
theorem login_failures_indistinguishable (store : Store) (c1 c2 : Credentials)
    (e1 e2 : AppError)
    (h1 : verifyCredentials store c1 = Except.error e1)
    (h2 : verifyCredentials store c2 = Except.error e2) :
    e1 = AppError.InvalidCredentials invalidCredentialsMessage ∧ e2 = e1 := by
  have key : ∀ c e, verifyCredentials store c = Except.error e →
      e = AppError.InvalidCredentials invalidCredentialsMessage := by
    intro c e h
    unfold verifyCredentials at h
    split at h
    · simp at h
      exact h.symm
    · split at h
      · simp at h
      · simp at h
        exact h.symm
  have k1 := key c1 e1 h1
  have k2 := key c2 e2 h2
  exact ⟨k1, k2.trans k1.symm⟩

/-- Credentials whose email is registered to no record in `storeFixture`. -/
def unknownCredentialsFixture : Credentials :=
  { email := "x@y.com", password := "whatever1" }

/-- Credentials with `userFixture`'s email but the wrong password. -/
def wrongPasswordFixture : Credentials :=
  { email := "a@b.com", password := "WrongPass1" }

/-- Witness for C6: a non-existent email and an existing email with a wrong
password fail with the identical error value. -/
theorem login_failures_indistinguishable_witness :
    verifyCredentials storeFixture unknownCredentialsFixture =
      Except.error (AppError.InvalidCredentials invalidCredentialsMessage) ∧
    verifyCredentials storeFixture wrongPasswordFixture =
      Except.error (AppError.InvalidCredentials invalidCredentialsMessage) ∧
    (AppError.InvalidCredentials invalidCredentialsMessage =
        AppError.InvalidCredentials invalidCredentialsMessage ∧
      AppError.InvalidCredentials invalidCredentialsMessage =
        AppError.InvalidCredentials invalidCredentialsMessage) :=
  ⟨rfl, rfl,
   login_failures_indistinguishable storeFixture unknownCredentialsFixture
     wrongPasswordFixture _ _ rfl rfl⟩

/-- C7: every successfully created record signup returns has its password field
stripped to the empty string: neither the plaintext nor the hash is echoed. -/
theorem signup_strips_password (store : Store) (userData : User) (u : User)
    (h : (signup store userData).2 = Except.ok u) :
    u.password = "" := by
  unfold signup at h
  split at h
  · simp at h
  · simp [Store.create] at h
    rw [← h]

/-- A second signup request, used by the C7 witness. -/
def signupAttemptFixture2 : User :=
  { id := 0
    email := "c@d.com"
    password := "An0therPass!"
    permissions := [] }

/-- The record signup is expected to return for `signupAttemptFixture2` on a
store whose next id is 5. -/
def createdUserFixture2 : User :=
  { id := 5
    email := "c@d.com"
    password := ""
    permissions := [PermissionKeys.AuthFeatures, PermissionKeys.GetBlogs] }

/-- Witness for C7: a concrete successful signup whose returned record's
password field is the empty string. -/
theorem signup_strips_password_witness :
    (signup { users := [], nextId := 5 } signupAttemptFixture2).2 =
      Except.ok createdUserFixture2 ∧
    createdUserFixture2.password = "" :=
  ⟨rfl,
   signup_strips_password { users := [], nextId := 5 } signupAttemptFixture2
     createdUserFixture2 rfl⟩

/-- C8 counterexample: the claim says `me` is produced without mutating the
original claims object in place, but the handler assigns to the injected
object's fields and returns that same object: its post-call state differs from
its pre-call state at this concrete input. -/
theorem me_mutates_original_counterexample :
    (me { securityId := "42", id := "", permissions := [] }).2 ≠
      ({ securityId := "42", id := "", permissions := [] } : UserProfile) := by
  decide

/-- C8 (amended): `me` returns the profile with the token's subject identifier
copied into the id field and the internal security-id field cleared to empty,
and it produces this by mutating the injected claims object in place: the
returned value and the post-call state of the original object are that same
mutated value. -/
theorem me_returns_mutated_original (currentUser : UserProfile) :
    (me currentUser).1 =
      { currentUser with id := currentUser.securityId, securityId := "" } ∧
    (me currentUser).2 = (me currentUser).1 :=
  ⟨rfl, rfl⟩

/-- C9: `convertToUserProfile` is a pure mapping of the record alone (its
embedding takes no store and produces no effects) that copies the record's id
to the subject identifier and the record's permissions to the claims'
permission set. -/
theorem convertToUserProfile_pure_mapping (record : User) :
    (convertToUserProfile record).securityId = toString record.id ∧
    (convertToUserProfile record).permissions = record.permissions :=
  ⟨rfl, rfl⟩

/-- C10: when credential verification fails, login propagates exactly that
error: no token is generated and no token value is produced. -/
theorem login_no_token_on_failed_verification (secret now ttl : Nat)
    (store : Store) (credentials : Credentials) (e : AppError)
    (h : verifyCredentials store credentials = Except.error e) :
    login secret now ttl store credentials = Except.error e := by
  unfold login
  rw [h]

/-- Credentials for a login attempt by an unregistered email, used by the C10
witness. -/
def badLoginFixture : Credentials :=
  { email := "nobody@b.com", password := "Str0ng!Pass" }

/-- Witness for C10: a failing login returns the verification error and no
token. -/
theorem login_no_token_on_failed_verification_witness :
    verifyCredentials storeFixture badLoginFixture =
      Except.error (AppError.InvalidCredentials invalidCredentialsMessage) ∧
    login 7 10 100 storeFixture badLoginFixture =
      Except.error (AppError.InvalidCredentials invalidCredentialsMessage) :=
  ⟨rfl,
   login_no_token_on_failed_verification 7 10 100 storeFixture badLoginFixture
     (AppError.InvalidCredentials invalidCredentialsMessage) rfl⟩

end JwtTutorial
